import Mathlib

/-!
Verification of the array codec (`src/jina/types/ndarray/dense/numpy.py`,
class `DenseNdArray`, the `value` property getter and setter) and of the
input-validation / batching logic of the base client
(`src/jina/clients/base/__init__.py`, `BaseClient.check_input` and
`BaseClient._get_requests`).

Modelling conventions:
* Numeric array elements are modelled as exact rationals (`ℚ`); the byte
  buffer of the protobuf message is modelled at element granularity as the
  list of stored element values together with the stored dtype string, so
  `np.frombuffer` at the recorded dtype is the identity on that list.
* `numpy.astype` conversions between floating dtypes are modelled by an
  explicit parameter `castF : Dtype → ℚ → ℚ` (the conversion numpy applies
  when casting to the given target dtype); the one concrete integer cast the
  code performs, `astype(np.uint8)` on non-negative values, is modelled
  exactly as C truncation followed by reduction mod 256 (`toUint8`).
* The protobuf message `DenseNdArrayProto` is modelled with the fields the
  code reads and writes; a freshly constructed message has proto default
  values (empty buffer, empty strings, zeros, quantization `NONE`).  The
  quantization enum has exactly the four members the code names:
  `NONE`, `FP32`, `FP16`, `UINT8`.
* `numpy`'s `x.max()` / `x.min()`, which raise on an empty array, make the
  setter partial: the model returns `none` exactly where the Python code
  raises, and `some` of the constructed message elsewhere.
* `x.reshape(shape)`, which raises when the element count does not match the
  shape product, makes the getter return `Except.error` there; the Python
  getter's fall-through `return None` (empty buffer, empty shape) is
  `Except.ok none`.
-/

namespace Jina

/-- A numpy element dtype, as recorded in the protobuf `dtype` /
`original_dtype` string fields.  `named s` covers every other dtype string
(including the proto default, the empty string). -/
inductive Dtype where
  | float16
  | float32
  | float64
  | uint8
  | named (s : String)
deriving DecidableEq, Repr

/-- A logical numpy array: element dtype, shape, and the flat row-major
element list. -/
structure NdArr where
  dtype : Dtype
  shape : List Nat
  data : List ℚ
deriving DecidableEq, Repr

/-- The quantization enum of `jina_pb2.DenseNdArrayProto`; the code names
exactly the members `NONE`, `FP32`, `FP16` and `UINT8`. -/
inductive Quantization where
  | NONE
  | FP32
  | FP16
  | UINT8
deriving DecidableEq, Repr

/-- The protobuf message `DenseNdArrayProto`, with the fields the code reads
and writes.  The buffer is modelled at element granularity. -/
structure DenseNdArrayProto where
  buffer : List ℚ
  dtype : Dtype
  original_dtype : Dtype
  shape : List Nat
  quantization : Quantization
  max_val : ℚ
  min_val : ℚ
  scale : ℚ
deriving DecidableEq, Repr

/-- A freshly constructed protobuf message: proto3 default values. -/
def emptyProto : DenseNdArrayProto :=
  { buffer := []
    dtype := .named ""
    original_dtype := .named ""
    shape := []
    quantization := .NONE
    max_val := 0
    min_val := 0
    scale := 0 }

/-- `x.max()` over all elements of a non-empty numpy array
(junk value `0` on the empty list, where numpy raises instead;
the setter guards that case separately). -/
def npMax : List ℚ → ℚ
  | [] => 0
  | x :: xs => xs.foldl max x

/-- `x.min()` over all elements of a non-empty numpy array (junk on `[]`). -/
def npMin : List ℚ → ℚ
  | [] => 0
  | x :: xs => xs.foldl min x

/-- `astype(np.uint8)` on a non-negative value: C float-to-unsigned-char
conversion, i.e. truncation toward zero then reduction mod 256. -/
def toUint8 (q : ℚ) : ℕ := (Int.toNat ⌊q⌋) % 256

/-- The `value` setter of `DenseNdArray`
(`src/jina/types/ndarray/dense/numpy.py`, lines 66-98).  `mode` is
`self._dtype` (the requested quantization mode string), `castF` models
`astype` to a floating dtype, `x` the array being stored.  Returns `none`
exactly when the Python code raises (`x.max()` on an empty array in the
`uint8` branch). -/
def DenseNdArray.setValue (mode : Option String) (castF : Dtype → ℚ → ℚ)
    (x : NdArr) : Option DenseNdArrayProto :=
  if mode = some "fp32" ∧ x.dtype = .float64 then
    some { emptyProto with
      quantization := .FP32
      original_dtype := x.dtype
      buffer := x.data.map (castF .float32)
      dtype := .float32
      shape := x.shape }
  else if mode = some "fp16" ∧ (x.dtype = .float32 ∨ x.dtype = .float64) then
    some { emptyProto with
      quantization := .FP16
      original_dtype := x.dtype
      buffer := x.data.map (castF .float16)
      dtype := .float16
      shape := x.shape }
  else if mode = some "uint8" ∧
      (x.dtype = .float32 ∨ x.dtype = .float64 ∨ x.dtype = .float16) then
    if x.data = [] then none
    else
      some { emptyProto with
        quantization := .UINT8
        max_val := npMax x.data
        min_val := npMin x.data
        original_dtype := x.dtype
        scale := (npMax x.data - npMin x.data) / 256
        buffer := x.data.map (fun v =>
          ((toUint8 ((v - npMin x.data) /
            ((npMax x.data - npMin x.data) / 256)) : ℕ) : ℚ))
        dtype := .uint8
        shape := x.shape }
  else
    some { emptyProto with
      quantization := .NONE
      buffer := x.data
      dtype := x.dtype
      shape := x.shape }

/-- The `value` getter of `DenseNdArray`
(`src/jina/types/ndarray/dense/numpy.py`, lines 46-64).
`Except.error` models the exception `x.reshape` raises on an element-count
mismatch; `Except.ok none` is the Python fall-through `return None` (empty
buffer and empty shape); `Except.ok (some arr)` is a returned array. -/
def DenseNdArray.getValue (castF : Dtype → ℚ → ℚ)
    (blob : DenseNdArrayProto) : Except String (Option NdArr) :=
  if blob.buffer.length ≠ 0 then
    let y : List ℚ :=
      if blob.quantization = .FP16 then
        blob.buffer.map (castF blob.original_dtype)
      else if blob.quantization = .UINT8 then
        blob.buffer.map (fun u =>
          castF blob.original_dtype u * blob.scale + blob.min_val)
      else blob.buffer
    let d : Dtype :=
      if blob.quantization = .FP16 ∨ blob.quantization = .UINT8 then
        blob.original_dtype
      else blob.dtype
    if y.length = blob.shape.prod then Except.ok (some ⟨d, blob.shape, y⟩)
    else Except.error "cannot reshape array"
  else if 0 < blob.shape.length then
    Except.ok (some ⟨.float64, blob.shape, List.replicate blob.shape.prod 0⟩)
  else
    Except.ok none

/-- `BaseClient._get_requests` (`src/jina/clients/base/__init__.py`,
lines 94-97): the precomputed `self._inputs_length`.  `len` is
`len(self._inputs)` when the inputs object has `__len__`, else `none`;
`request_size` is `_kwargs[..]`.  Python's true division `/` is exact
division here; `max(1, ...)` is `max 1`. -/
def inputs_length (len : Option ℕ) (request_size : ℚ) : Option ℚ :=
  match len with
  | some n => some (max 1 ((n : ℚ) / request_size))
  | none => none

/-- What `next(request_generator(..))` plus the `isinstance(r, Request)`
check does on a synchronously drainable source: it either yields a first
object (with `isReq` recording whether it is a `Request` instance and
`tyname` its type name, used in the `TypeError` message), or raises with
some message while resolving the first item or building the request. -/
inductive GenFirst where
  | yields (isReq : Bool) (tyname : String)
  | raises (msg : String)
deriving DecidableEq, Repr

/-- An input source once the zero-argument-callable indirection is gone:
an async generator object, an async generator function, or a plain source
whose first-request construction behaves as `first`. -/
inductive Resolved where
  | asyncGen
  | asyncGenFunc
  | plain (first : GenFirst)
deriving DecidableEq, Repr

/-- The raw `inputs` argument of `BaseClient.check_input`: `None`, a
non-callable source, or a zero-argument callable producing a source. -/
inductive InputSrc where
  | noInput
  | direct (r : Resolved)
  | callable (r : Resolved)
deriving DecidableEq, Repr

/-- The resolution step of `check_input`: `None` stays unresolved, a
callable is invoked once, anything else is used directly. -/
def resolveInput : InputSrc → Option Resolved
  | .noInput => none
  | .direct r => some r
  | .callable r => some r

/-- Outcome of `BaseClient.check_input`: normal return, a raised
`ValidationError`, or a raised `BadClientInput` whose `__cause__` carries
the original exception message. -/
inductive CheckOutcome where
  | ok
  | validationError
  | badClientInput (cause : String)
deriving DecidableEq, Repr

/-- The part of `check_input` after resolution (lines 62-78): reject async
generators / async generator functions with `ValidationError`; otherwise
build one request and wrap any exception (including the `TypeError` for a
non-`Request` object) in `BadClientInput`. -/
def checkResolved : Resolved → CheckOutcome
  | .asyncGen => .validationError
  | .asyncGenFunc => .validationError
  | .plain (.yields true _) => .ok
  | .plain (.yields false tyname) =>
      .badClientInput (tyname ++ " is not a valid Request")
  | .plain (.raises msg) => .badClientInput msg

/-- `BaseClient.check_input` (`src/jina/clients/base/__init__.py`,
lines 47-78). -/
def check_input : InputSrc → CheckOutcome
  | .noInput => .ok
  | .direct r => checkResolved r
  | .callable r => checkResolved r

/-- How many requests `check_input` pulls out of `request_generator`:
zero for `None` and for the rejected async cases, zero when resolving the
first item raises before a request is produced, and exactly one otherwise
(the single `next(..)` call). -/
def requestsConstructed (s : InputSrc) : ℕ :=
  match resolveInput s with
  | none => 0
  | some .asyncGen => 0
  | some .asyncGenFunc => 0
  | some (.plain (.yields _ _)) => 1
  | some (.plain (.raises _)) => 0

/-- C3 counterexample: on the EncodedArray with empty buffer and zero-length
shape, `decode` (the `value` getter) returns Python `None` — the function
falls through both branches — and in particular does not yield an empty
array as the claim states; no error is raised (`Except.ok`). -/
theorem C3_counterexample :
    DenseNdArray.getValue (fun _ q => q)
      { emptyProto with dtype := .float64, original_dtype := .float64 }
      = Except.ok none ∧
    ¬ ∃ arr : NdArr,
      DenseNdArray.getValue (fun _ q => q)
        { emptyProto with dtype := .float64, original_dtype := .float64 }
        = Except.ok (some arr) := by
  refine ⟨rfl, ?_⟩
  rintro ⟨arr, h⟩
  rw [show DenseNdArray.getValue (fun _ q => q)
      { emptyProto with dtype := .float64, original_dtype := .float64 }
      = Except.ok none from rfl] at h
  simp at h

/-- C3 (amended): `decode` on an EncodedArray with empty buffer and a shape
of positive length yields a zero-filled array of that shape; with empty
buffer and zero-length shape it yields no array at all (Python `None`, not
an empty array); in neither case is an error raised. -/
theorem C3_degenerate_decode (castF : Dtype → ℚ → ℚ)
    (blob : DenseNdArrayProto) (h : blob.buffer = []) :
    (0 < blob.shape.length →
      DenseNdArray.getValue castF blob =
        Except.ok (some ⟨.float64, blob.shape,
          List.replicate blob.shape.prod 0⟩)) ∧
    (blob.shape = [] → DenseNdArray.getValue castF blob = Except.ok none) := by
  constructor
  · intro hs
    rw [DenseNdArray.getValue, if_neg (by simp [h]), if_pos hs]
  · intro hs
    rw [DenseNdArray.getValue, if_neg (by simp [h]), if_neg (by simp [hs])]

/-- Witness for C3: a concrete EncodedArray with empty buffer and shape
`[3, 4]` decodes to the 3×4 zero array, and one with empty buffer and shape
`[]` decodes to `None`. -/
theorem C3_degenerate_decode_witness :
    (0 < ({ emptyProto with shape := [3, 4] } : DenseNdArrayProto).shape.length →
      DenseNdArray.getValue (fun _ q => q) { emptyProto with shape := [3, 4] } =
        Except.ok (some ⟨.float64,
          ({ emptyProto with shape := [3, 4] } : DenseNdArrayProto).shape,
          List.replicate
            ({ emptyProto with shape := [3, 4] } : DenseNdArrayProto).shape.prod 0⟩)) ∧
    (({ emptyProto with shape := [3, 4] } : DenseNdArrayProto).shape = [] →
      DenseNdArray.getValue (fun _ q => q) { emptyProto with shape := [3, 4] } =
        Except.ok none) :=
  C3_degenerate_decode (fun _ q => q) { emptyProto with shape := [3, 4] } rfl

/-- C10: in the empty-buffer, positive-length-shape branch the getter calls
`np.zeros(blob.shape)` whose element type is the numpy default 64-bit float;
the decoded dtype is `float64` regardless of the stored `dtype` and
`original_dtype` fields, which are not consulted. -/
theorem C10_empty_buffer_default_dtype (castF : Dtype → ℚ → ℚ)
    (blob : DenseNdArrayProto) (h : blob.buffer = [])
    (hs : 0 < blob.shape.length) :
    DenseNdArray.getValue castF blob =
      Except.ok (some ⟨.float64, blob.shape,
        List.replicate blob.shape.prod 0⟩) ∧
    ∀ d od : Dtype,
      DenseNdArray.getValue castF { blob with dtype := d, original_dtype := od } =
        Except.ok (some ⟨.float64, blob.shape,
          List.replicate blob.shape.prod 0⟩) := by
  constructor
  · rw [DenseNdArray.getValue, if_neg (by simp [h]), if_pos hs]
  · intro d od
    rw [DenseNdArray.getValue, if_neg (by simp [h]), if_pos hs]

/-- Witness for C10: empty buffer, shape `[3, 4]`, stored dtype `float16`
and original dtype `float32`: the decoded array still has dtype `float64`. -/
theorem C10_empty_buffer_default_dtype_witness :
    DenseNdArray.getValue (fun _ q => q)
      ⟨[], .float16, .float32, [3, 4], .NONE, 0, 0, 0⟩ =
      Except.ok (some ⟨.float64, [3, 4], List.replicate 12 0⟩) ∧
    ∀ d od : Dtype,
      DenseNdArray.getValue (fun _ q => q)
        ⟨[], d, od, [3, 4], .NONE, 0, 0, 0⟩ =
        Except.ok (some ⟨.float64, [3, 4], List.replicate 12 0⟩) :=
  C10_empty_buffer_default_dtype (fun _ q => q)
    ⟨[], .float16, .float32, [3, 4], .NONE, 0, 0, 0⟩ rfl (by decide)

/-- C2 counterexample: with a known length of 7 and request size 3 the code
stores `max(1, 7 / 3) = 7/3` (Python true division), which is not the
claimed `ceil(7/3) = 3` (nor its min-1 clamp). -/
theorem C2_counterexample :
    inputs_length (some 7) 3 = some (7 / 3 : ℚ) ∧
    ((7 : ℚ) / 3 ≠ 3) ∧
    max 1 (⌈(7 : ℚ) / 3⌉ : ℚ) = 3 := by
  refine ⟨?_, by norm_num, ?_⟩
  · rw [inputs_length]
    norm_num
  · have h3 : ⌈(7 : ℚ) / 3⌉ = 3 := by
      rw [Int.ceil_eq_iff]
      norm_num
    rw [h3]
    norm_num

/-- C2 (amended): for a known length `L` and request size `B ≥ 1` the
pipeline precomputes `max(1, L / B)` with exact (true) division — a possibly
fractional value whose ceiling equals the claimed `max(1, ceil(L / B))`, but
not the integer ceiling itself — and for a source without a known length it
stores `None` (unknown), not a guessed number. -/
theorem C2_expected_batches (L : ℕ) (B : ℚ) (_hB : 1 ≤ B) :
    inputs_length (some L) B = some (max 1 ((L : ℚ) / B)) ∧
    ⌈max 1 ((L : ℚ) / B)⌉ = max 1 ⌈(L : ℚ) / B⌉ ∧
    inputs_length none B = none := by
  refine ⟨rfl, ?_, rfl⟩
  rcases le_total (1 : ℚ) ((L : ℚ) / B) with h | h
  · rw [max_eq_right h, max_eq_right]
    calc (1 : ℤ) = ⌈(1 : ℚ)⌉ := Int.ceil_one.symm
      _ ≤ ⌈(L : ℚ) / B⌉ := Int.ceil_mono h
  · rw [max_eq_left h, Int.ceil_one, max_eq_left]
    calc ⌈(L : ℚ) / B⌉ ≤ ⌈(1 : ℚ)⌉ := Int.ceil_mono h
      _ = 1 := Int.ceil_one

/-- Witness for C2: length 7, request size 3. -/
theorem C2_expected_batches_witness :
    inputs_length (some 7) 3 = some (max 1 ((7 : ℚ) / 3)) ∧
    ⌈max 1 ((7 : ℚ) / 3)⌉ = max 1 ⌈(7 : ℚ) / 3⌉ ∧
    inputs_length none 3 = none :=
  C2_expected_batches 7 3 (by norm_num)

/-- C8: any input source that resolves (after invoking a zero-argument
callable, if necessary) to an asynchronous generator makes `check_input`
raise `ValidationError`. -/
theorem C8_async_rejected (s : InputSrc)
    (h : resolveInput s = some .asyncGen) :
    check_input s = .validationError := by
  cases s with
  | noInput => exact absurd h (by simp [resolveInput])
  | direct r =>
      rw [resolveInput] at h
      rw [check_input, Option.some_inj.mp h]
      rfl
  | callable r =>
      rw [resolveInput] at h
      rw [check_input, Option.some_inj.mp h]
      rfl

/-- Witness for C8: a zero-argument callable returning an async generator is
rejected with `ValidationError`. -/
theorem C8_async_rejected_witness :
    check_input (.callable .asyncGen) = .validationError :=
  C8_async_rejected (.callable .asyncGen) rfl

/-- C9: a `None` source is accepted with no request constructed; every other
non-async source has exactly one request pulled from `request_generator`,
and `check_input` returns normally when that first object is a valid
`Request`, raises `BadClientInput` carrying the `TypeError` cause when it is
not, and raises `BadClientInput` carrying the original exception as cause
when resolution or building raises. -/
theorem C9_check_input_wrapping (s : InputSrc) :
    (s = .noInput → check_input s = .ok ∧ requestsConstructed s = 0) ∧
    (∀ b tyname, resolveInput s = some (.plain (.yields b tyname)) →
      requestsConstructed s = 1 ∧
      (b = true → check_input s = .ok) ∧
      (b = false → check_input s =
        .badClientInput (tyname ++ " is not a valid Request"))) ∧
    (∀ msg, resolveInput s = some (.plain (.raises msg)) →
      requestsConstructed s = 0 ∧ check_input s = .badClientInput msg) := by
  refine ⟨fun h => by subst h; exact ⟨rfl, rfl⟩, ?_, ?_⟩
  · intro b tyname h
    cases s with
    | noInput => simp [resolveInput] at h
    | direct r =>
        rw [resolveInput] at h
        injection h with h
        subst h
        exact ⟨rfl, fun hb => by subst hb; rfl, fun hb => by subst hb; rfl⟩
    | callable r =>
        rw [resolveInput] at h
        injection h with h
        subst h
        exact ⟨rfl, fun hb => by subst hb; rfl, fun hb => by subst hb; rfl⟩
  · intro msg h
    cases s with
    | noInput => simp [resolveInput] at h
    | direct r =>
        rw [resolveInput] at h
        injection h with h
        subst h
        exact ⟨rfl, rfl⟩
    | callable r =>
        rw [resolveInput] at h
        injection h with h
        subst h
        exact ⟨rfl, rfl⟩

/-- Witness for C9: a direct source whose first-request construction raises
`"boom"`: `check_input` raises `BadClientInput` with that cause and no
request is constructed; the conjunction is instantiated at this source. -/
theorem C9_check_input_wrapping_witness :
    (InputSrc.direct (.plain (.raises "boom")) = .noInput →
      check_input (.direct (.plain (.raises "boom"))) = .ok ∧
      requestsConstructed (.direct (.plain (.raises "boom"))) = 0) ∧
    (∀ b tyname,
      resolveInput (.direct (.plain (.raises "boom"))) =
        some (.plain (.yields b tyname)) →
      requestsConstructed (.direct (.plain (.raises "boom"))) = 1 ∧
      (b = true → check_input (.direct (.plain (.raises "boom"))) = .ok) ∧
      (b = false → check_input (.direct (.plain (.raises "boom"))) =
        .badClientInput (tyname ++ " is not a valid Request"))) ∧
    (∀ msg,
      resolveInput (.direct (.plain (.raises "boom"))) =
        some (.plain (.raises msg)) →
      requestsConstructed (.direct (.plain (.raises "boom"))) = 0 ∧
      check_input (.direct (.plain (.raises "boom"))) = .badClientInput msg) :=
  C9_check_input_wrapping (.direct (.plain (.raises "boom")))

/-- C4 counterexample: storing a `float64` array with requested mode `fp32`
sets the quantization field to `FP32`, a fourth enum value outside the
claimed set {NONE, FP16, UINT8}. -/
theorem C4_counterexample :
    DenseNdArray.setValue (some "fp32") (fun _ q => q) ⟨.float64, [1], [1]⟩ =
      some ⟨[1], .float32, .float64, [1], .FP32, 0, 0, 0⟩ ∧
    Quantization.FP32 ≠ .NONE ∧ Quantization.FP32 ≠ .FP16 ∧
    Quantization.FP32 ≠ .UINT8 := by
  refine ⟨?_, by decide, by decide, by decide⟩
  rfl

/-- C4 (amended): whatever mode string is requested and whatever the
element type, any EncodedArray produced by the setter has its quantization
field among the four values NONE, FP32, FP16, UINT8; it is FP32 exactly
when mode `fp32` was requested for a `float64` array. -/
theorem C4_quantization_range (mode : Option String) (castF : Dtype → ℚ → ℚ)
    (A : NdArr) (blob : DenseNdArrayProto)
    (h : DenseNdArray.setValue mode castF A = some blob) :
    (blob.quantization = .NONE ∨ blob.quantization = .FP32 ∨
      blob.quantization = .FP16 ∨ blob.quantization = .UINT8) ∧
    (blob.quantization = .FP32 ↔ mode = some "fp32" ∧ A.dtype = .float64) := by
  constructor
  · cases blob.quantization
    · exact Or.inl rfl
    · exact Or.inr (Or.inl rfl)
    · exact Or.inr (Or.inr (Or.inl rfl))
    · exact Or.inr (Or.inr (Or.inr rfl))
  · rw [DenseNdArray.setValue] at h
    by_cases c1 : mode = some "fp32" ∧ A.dtype = .float64
    · rw [if_pos c1] at h
      injection h with h
      subst h
      simp [c1.1, c1.2]
    · rw [if_neg c1] at h
      by_cases c2 : mode = some "fp16" ∧
          (A.dtype = .float32 ∨ A.dtype = .float64)
      · rw [if_pos c2] at h
        injection h with h
        subst h
        simp [c1]
      · rw [if_neg c2] at h
        by_cases c3 : mode = some "uint8" ∧
            (A.dtype = .float32 ∨ A.dtype = .float64 ∨ A.dtype = .float16)
        · rw [if_pos c3] at h
          by_cases c4 : A.data = []
          · rw [if_pos c4] at h
            cases h
          · rw [if_neg c4] at h
            injection h with h
            subst h
            simp [c1]
        · rw [if_neg c3] at h
          injection h with h
          subst h
          simp [c1]

/-- Witness for C4: mode `fp32` on a `float64` array gives quantization
`FP32`, which is among the four enum values, and the FP32 characterization
holds. -/
theorem C4_quantization_range_witness :
    ((⟨[1], .float32, .float64, [1], .FP32, 0, 0, 0⟩ :
        DenseNdArrayProto).quantization = .NONE ∨
      (⟨[1], .float32, .float64, [1], .FP32, 0, 0, 0⟩ :
        DenseNdArrayProto).quantization = .FP32 ∨
      (⟨[1], .float32, .float64, [1], .FP32, 0, 0, 0⟩ :
        DenseNdArrayProto).quantization = .FP16 ∨
      (⟨[1], .float32, .float64, [1], .FP32, 0, 0, 0⟩ :
        DenseNdArrayProto).quantization = .UINT8) ∧
    ((⟨[1], .float32, .float64, [1], .FP32, 0, 0, 0⟩ :
        DenseNdArrayProto).quantization = .FP32 ↔
      some "fp32" = some "fp32" ∧
        (⟨.float64, [1], [1]⟩ : NdArr).dtype = .float64) :=
  C4_quantization_range (some "fp32") (fun _ q => q) ⟨.float64, [1], [1]⟩
    ⟨[1], .float32, .float64, [1], .FP32, 0, 0, 0⟩ rfl

/-- C7: when the requested mode does not apply to the array's element type
(no branch condition of the setter matches), the setter does not fail: it
stores the element data verbatim at the array's own dtype, with
quantization `NONE` (and the proto-default `original_dtype`). -/
theorem C7_fallback_none (mode : Option String) (castF : Dtype → ℚ → ℚ)
    (A : NdArr)
    (h1 : ¬(mode = some "fp32" ∧ A.dtype = .float64))
    (h2 : ¬(mode = some "fp16" ∧ (A.dtype = .float32 ∨ A.dtype = .float64)))
    (h3 : ¬(mode = some "uint8" ∧
      (A.dtype = .float32 ∨ A.dtype = .float64 ∨ A.dtype = .float16))) :
    DenseNdArray.setValue mode castF A =
      some { emptyProto with
        quantization := .NONE
        buffer := A.data
        dtype := A.dtype
        shape := A.shape } := by
  rw [DenseNdArray.setValue, if_neg h1, if_neg h2, if_neg h3]

/-- Witness for C7: an integer (`uint8`-typed) array with mode `fp16`
requested is stored verbatim with quantization `NONE`. -/
theorem C7_fallback_none_witness :
    DenseNdArray.setValue (some "fp16") (fun _ q => q) ⟨.uint8, [1], [5]⟩ =
      some ⟨[5], .uint8, .named "", [1], .NONE, 0, 0, 0⟩ :=
  C7_fallback_none (some "fp16") (fun _ q => q) ⟨.uint8, [1], [5]⟩
    (by simp) (by simp) (by simp)

/-- C5: storing any well-formed array with no quantization mode requested
and reading it back yields an array with the same shape and exactly the
same elements. -/
theorem C5_roundtrip_none (castF : Dtype → ℚ → ℚ) (A : NdArr)
    (hw : A.data.length = A.shape.prod) :
    ∃ blob arr,
      DenseNdArray.setValue none castF A = some blob ∧
      DenseNdArray.getValue castF blob = Except.ok (some arr) ∧
      arr.shape = A.shape ∧ arr.data = A.data := by
  have hb : DenseNdArray.setValue none castF A =
      some { emptyProto with
        quantization := .NONE
        buffer := A.data
        dtype := A.dtype
        shape := A.shape } := by
    rw [DenseNdArray.setValue, if_neg (by simp), if_neg (by simp),
      if_neg (by simp)]
  by_cases hA : A.data = []
  · have hsh : A.shape ≠ [] := by
      intro hs
      rw [hs] at hw
      rw [hA] at hw
      simp at hw
    have hpos : 0 < A.shape.length := List.length_pos.mpr hsh
    refine ⟨_, ⟨.float64, A.shape, List.replicate A.shape.prod 0⟩, hb, ?_,
      rfl, ?_⟩
    · simp [DenseNdArray.getValue, hA, hpos]
    · rw [← hw, hA]
      simp
  · refine ⟨_, ⟨A.dtype, A.shape, A.data⟩, hb, ?_, rfl, rfl⟩
    simp [DenseNdArray.getValue, hA, hw]
    intro h0
    exact absurd (List.length_eq_zero.mp (hw.trans (List.prod_eq_zero h0))) hA

/-- Witness for C5: the array `[3, 4]` of dtype `int32`-like (`named`)
round-trips through NONE encoding unchanged. -/
theorem C5_roundtrip_none_witness :
    ∃ blob arr,
      DenseNdArray.setValue none (fun _ q => q) ⟨.named "int32", [2], [3, 4]⟩ =
        some blob ∧
      DenseNdArray.getValue (fun _ q => q) blob = Except.ok (some arr) ∧
      arr.shape = [2] ∧ arr.data = [3, 4] :=
  C5_roundtrip_none (fun _ q => q) ⟨.named "int32", [2], [3, 4]⟩ rfl

/-- C6 counterexample: the empty `float32` array (shape `[0]`) encoded in
FP16 mode decodes through the empty-buffer branch to a `float64`-typed
array, so the decoded element type is not the recorded `original_dtype`
(`float32`), contrary to the claim's universal dtype promise. -/
theorem C6_counterexample :
    DenseNdArray.setValue (some "fp16") (fun _ q => q) ⟨.float32, [0], []⟩ =
      some ⟨[], .float16, .float32, [0], .FP16, 0, 0, 0⟩ ∧
    DenseNdArray.getValue (fun _ q => q)
      ⟨[], .float16, .float32, [0], .FP16, 0, 0, 0⟩ =
      Except.ok (some ⟨.float64, [0], []⟩) ∧
    Dtype.float64 ≠ Dtype.float32 := by
  refine ⟨rfl, rfl, by decide⟩

/-- C6 (amended): for every nonempty 32/64-bit-float array, FP16 encoding
followed by decoding yields exactly the array obtained by casting to
16-bit float and then back to the original dtype, and the decoded dtype is
the recorded `original_dtype`; the result is a function of the input
(deterministic).  (For an empty array the decoder's empty-buffer branch
returns a default-`float64`-typed empty array instead.) -/
theorem C6_fp16_roundtrip_amended (castF : Dtype → ℚ → ℚ) (A : NdArr)
    (hd : A.dtype = .float32 ∨ A.dtype = .float64)
    (hne : A.data ≠ [])
    (hw : A.data.length = A.shape.prod) :
    ∃ blob,
      DenseNdArray.setValue (some "fp16") castF A = some blob ∧
      blob.original_dtype = A.dtype ∧
      DenseNdArray.getValue castF blob =
        Except.ok (some ⟨A.dtype, A.shape,
          (A.data.map (castF .float16)).map (castF A.dtype)⟩) := by
  have hb : DenseNdArray.setValue (some "fp16") castF A =
      some { emptyProto with
        quantization := .FP16
        original_dtype := A.dtype
        buffer := A.data.map (castF .float16)
        dtype := .float16
        shape := A.shape } := by
    rw [DenseNdArray.setValue, if_neg (by simp), if_pos ⟨rfl, hd⟩]
  refine ⟨_, hb, rfl, ?_⟩
  simp [DenseNdArray.getValue, hne, hw]
  intro h0
  exact absurd (List.length_eq_zero.mp (hw.trans (List.prod_eq_zero h0))) hne

/-- Witness for C6: the one-element `float32` array `[3/2]` with the
identity cast model round-trips through FP16 to itself, with decoded dtype
`float32`. -/
theorem C6_fp16_roundtrip_amended_witness :
    ∃ blob,
      DenseNdArray.setValue (some "fp16") (fun _ q => q)
        ⟨.float32, [1], [3 / 2]⟩ = some blob ∧
      blob.original_dtype = Dtype.float32 ∧
      DenseNdArray.getValue (fun _ q => q) blob =
        Except.ok (some ⟨.float32, [1], [3 / 2]⟩) :=
  C6_fp16_roundtrip_amended (fun _ q => q) ⟨.float32, [1], [3 / 2]⟩
    (Or.inl rfl) (by simp) rfl

theorem le_foldl_max (xs : List ℚ) (b : ℚ) : b ≤ xs.foldl max b := by
  induction xs generalizing b with
  | nil => exact le_refl b
  | cons y ys ih => exact le_trans (le_max_left b y) (ih (max b y))

theorem mem_le_foldl_max :
    ∀ (xs : List ℚ) (b : ℚ) {a : ℚ}, a ∈ xs → a ≤ xs.foldl max b
  | [], _, _, h => absurd h (List.not_mem_nil _)
  | y :: ys, b, a, h => by
      rcases List.mem_cons.mp h with h1 | h2
      · subst h1
        exact le_trans (le_max_right b a) (le_foldl_max ys (max b a))
      · exact mem_le_foldl_max ys (max b y) h2

/-- Every element of a list is bounded above by `npMax` (numpy `x.max()`). -/
theorem le_npMax {a : ℚ} {l : List ℚ} (h : a ∈ l) : a ≤ npMax l := by
  cases l with
  | nil => cases h
  | cons x xs =>
      rcases List.mem_cons.mp h with h1 | h2
      · subst h1
        exact le_foldl_max xs a
      · exact mem_le_foldl_max xs x h2

theorem foldl_min_le (xs : List ℚ) (b : ℚ) : xs.foldl min b ≤ b := by
  induction xs generalizing b with
  | nil => exact le_refl b
  | cons y ys ih => exact le_trans (ih (min b y)) (min_le_left b y)

theorem foldl_min_le_mem :
    ∀ (xs : List ℚ) (b : ℚ) {a : ℚ}, a ∈ xs → xs.foldl min b ≤ a
  | [], _, _, h => absurd h (List.not_mem_nil _)
  | y :: ys, b, a, h => by
      rcases List.mem_cons.mp h with h1 | h2
      · subst h1
        exact le_trans (foldl_min_le ys (min b a)) (min_le_right b a)
      · exact foldl_min_le_mem ys (min b y) h2

/-- Every element of a list is bounded below by `npMin` (numpy `x.min()`). -/
theorem npMin_le {a : ℚ} {l : List ℚ} (h : a ∈ l) : npMin l ≤ a := by
  cases l with
  | nil => cases h
  | cons x xs =>
      rcases List.mem_cons.mp h with h1 | h2
      · subst h1
        exact foldl_min_le xs a
      · exact foldl_min_le_mem xs x h2

/-- Per-element behaviour of the UINT8 store/load pair on one value
`v ∈ [mn, mx]`: if the array is constant (`mx = mn`, hence scale zero) the
reconstruction is exactly `mn`; otherwise a value strictly below the
maximum reconstructs within strictly less than one scale step (truncation
error), and the maximum itself wraps around (`(mx-mn)/scale = 256`, cast to
uint8 gives `0`) and reconstructs to `mn`.  `hcast` states that the numpy
cast from uint8 back to the float dtype is exact on 0..255. -/
theorem uint8_elem (castF : Dtype → ℚ → ℚ) (od : Dtype) (mn mx v : ℚ)
    (hcast : ∀ n : ℕ, n < 256 → castF od (n : ℚ) = (n : ℚ))
    (hmn : mn ≤ v) (_hmx : v ≤ mx) :
    (mx = mn →
      castF od ((toUint8 ((v - mn) / ((mx - mn) / 256)) : ℕ) : ℚ) *
        ((mx - mn) / 256) + mn = mn) ∧
    (mn < mx →
      (v < mx →
        |castF od ((toUint8 ((v - mn) / ((mx - mn) / 256)) : ℕ) : ℚ) *
          ((mx - mn) / 256) + mn - v| < (mx - mn) / 256) ∧
      (v = mx →
        castF od ((toUint8 ((v - mn) / ((mx - mn) / 256)) : ℕ) : ℚ) *
          ((mx - mn) / 256) + mn = mn)) := by
  constructor
  · intro he
    rw [he, sub_self, zero_div, mul_zero, zero_add]
  · intro hlt
    have hsc : 0 < (mx - mn) / 256 := div_pos (sub_pos.mpr hlt) (by norm_num)
    constructor
    · intro hv
      have ht0 : 0 ≤ (v - mn) / ((mx - mn) / 256) :=
        div_nonneg (sub_nonneg.mpr hmn) hsc.le
      have ht256 : (v - mn) / ((mx - mn) / 256) < 256 := by
        rw [div_lt_iff₀ hsc]
        calc v - mn < mx - mn := by linarith
          _ = 256 * ((mx - mn) / 256) := by
              rw [mul_comm, div_mul_cancel₀ _ (by norm_num : (256 : ℚ) ≠ 0)]
      have hfl0 : 0 ≤ ⌊(v - mn) / ((mx - mn) / 256)⌋ := Int.floor_nonneg.mpr ht0
      have hfl256 : ⌊(v - mn) / ((mx - mn) / 256)⌋ < 256 :=
        Int.floor_lt.mpr (by exact_mod_cast ht256)
      have hu8 : toUint8 ((v - mn) / ((mx - mn) / 256)) =
          Int.toNat ⌊(v - mn) / ((mx - mn) / 256)⌋ := by
        rw [toUint8]
        exact Nat.mod_eq_of_lt (by omega)
      have hnat : ((Int.toNat ⌊(v - mn) / ((mx - mn) / 256)⌋ : ℕ) : ℚ) =
          ((⌊(v - mn) / ((mx - mn) / 256)⌋ : ℤ) : ℚ) := by
        exact_mod_cast congrArg (fun z : ℤ => (z : ℚ))
          (Int.toNat_of_nonneg hfl0)
      have hcastu : castF od ((toUint8 ((v - mn) / ((mx - mn) / 256)) : ℕ) : ℚ)
          = ((⌊(v - mn) / ((mx - mn) / 256)⌋ : ℤ) : ℚ) := by
        rw [hu8, hcast _ (by omega), hnat]
      have hv' : (v - mn) / ((mx - mn) / 256) * ((mx - mn) / 256) + mn = v := by
        rw [div_mul_cancel₀ _ hsc.ne']
        ring
      rw [hcastu]
      have h1 : ((⌊(v - mn) / ((mx - mn) / 256)⌋ : ℤ) : ℚ) * ((mx - mn) / 256)
          + mn - v =
          (((⌊(v - mn) / ((mx - mn) / 256)⌋ : ℤ) : ℚ) -
            (v - mn) / ((mx - mn) / 256)) * ((mx - mn) / 256) := by
        linear_combination hv'
      rw [h1, abs_mul, abs_of_pos hsc]
      have h2 : |((⌊(v - mn) / ((mx - mn) / 256)⌋ : ℤ) : ℚ) -
          (v - mn) / ((mx - mn) / 256)| =
          (v - mn) / ((mx - mn) / 256) -
            ((⌊(v - mn) / ((mx - mn) / 256)⌋ : ℤ) : ℚ) := by
        rw [abs_sub_comm,
          abs_of_nonneg (sub_nonneg.mpr (Int.floor_le ((v - mn) / ((mx - mn) / 256))))]
      rw [h2]
      have h3 : (v - mn) / ((mx - mn) / 256) -
          ((⌊(v - mn) / ((mx - mn) / 256)⌋ : ℤ) : ℚ) < 1 := by
        have := Int.sub_one_lt_floor ((v - mn) / ((mx - mn) / 256))
        linarith
      calc ((v - mn) / ((mx - mn) / 256) -
            ((⌊(v - mn) / ((mx - mn) / 256)⌋ : ℤ) : ℚ)) * ((mx - mn) / 256)
          < 1 * ((mx - mn) / 256) := mul_lt_mul_of_pos_right h3 hsc
        _ = (mx - mn) / 256 := one_mul _
    · intro hv
      have hne : mx - mn ≠ 0 := sub_ne_zero.mpr (ne_of_gt hlt)
      have ht : (v - mn) / ((mx - mn) / 256) = 256 := by
        rw [hv]
        field_simp
      rw [ht]
      have h0 : toUint8 (256 : ℚ) = 0 := by
        rw [toUint8, show ⌊(256 : ℚ)⌋ = 256 from rfl]
        decide
      rw [h0, hcast 0 (by norm_num)]
      norm_num

/-- C1 counterexample: for the float32 array `[0, 256]` (so `min_val = 0`,
`max_val = 256`, `scale = 1`, which satisfies the claim's `max_val >
min_val` hypothesis), the stored uint8 for the element `256` is
`uint8(256/1) = 0` (truncating cast, wraparound), so the reconstruction is
`0 * 1 + 0 = 0` — an error of `256`, far above the claimed bound
`scale / 2 = 1/2`. -/
theorem C1_counterexample :
    DenseNdArray.setValue (some "uint8") (fun _ q => q)
      ⟨.float32, [2], [0, 256]⟩ =
      some ⟨[0, 0], .uint8, .float32, [2], .UINT8, 256, 0, 1⟩ ∧
    DenseNdArray.getValue (fun _ q => q)
      ⟨[0, 0], .uint8, .float32, [2], .UINT8, 256, 0, 1⟩ =
      Except.ok (some ⟨.float32, [2], [0, 0]⟩) ∧
    (0 : ℚ) < 256 ∧
    ¬ (|(0 : ℚ) - 256| ≤ 1 / 2) := by
  have hmin : npMin ((⟨.float32, [2], [0, 256]⟩ : NdArr).data) = 0 := rfl
  have hmax : npMax ((⟨.float32, [2], [0, 256]⟩ : NdArr).data) = 256 := rfl
  refine ⟨?_, ?_, by norm_num, ?_⟩
  · rw [DenseNdArray.setValue, if_neg (by simp), if_neg (by simp),
      if_pos ⟨rfl, Or.inl rfl⟩, if_neg (by simp)]
    simp only [hmin, hmax]
    norm_num [toUint8]
    decide
  · rw [DenseNdArray.getValue]
    norm_num
  · rw [zero_sub, abs_neg, abs_of_nonneg (by norm_num : (0 : ℚ) ≤ 256)]
    norm_num

/-- C1 (amended): for every nonempty float array stored in UINT8 mode (with
the uint8-to-float cast exact on 0..255, as numpy's is), decoding the
encoding reconstructs: every element of a constant array (`max = min`) as
exactly `min_val`; and when `max > min`, every element strictly below the
maximum to within strictly less than `scale` (truncation error, not the
claimed `scale / 2`), while elements equal to the maximum wrap around in
the uint8 cast and come back as `min_val` exactly. -/
theorem C1_uint8_roundtrip_amended (castF : Dtype → ℚ → ℚ) (A : NdArr)
    (hd : A.dtype = .float32 ∨ A.dtype = .float64 ∨ A.dtype = .float16)
    (hne : A.data ≠ [])
    (hw : A.data.length = A.shape.prod)
    (hcast : ∀ n : ℕ, n < 256 → castF A.dtype (n : ℚ) = (n : ℚ)) :
    ∃ (blob : DenseNdArrayProto) (arr : NdArr),
      DenseNdArray.setValue (some "uint8") castF A = some blob ∧
      blob.scale = (npMax A.data - npMin A.data) / 256 ∧
      DenseNdArray.getValue castF blob = Except.ok (some arr) ∧
      arr.shape = A.shape ∧
      ∀ (i : ℕ) (v r : ℚ), A.data[i]? = some v → arr.data[i]? = some r →
        (npMax A.data = npMin A.data → r = npMin A.data) ∧
        (npMin A.data < npMax A.data →
          (v < npMax A.data → |r - v| < blob.scale) ∧
          (v = npMax A.data → r = npMin A.data)) := by
  have hb : DenseNdArray.setValue (some "uint8") castF A =
      some { emptyProto with
        quantization := .UINT8
        max_val := npMax A.data
        min_val := npMin A.data
        original_dtype := A.dtype
        scale := (npMax A.data - npMin A.data) / 256
        buffer := A.data.map (fun v =>
          ((toUint8 ((v - npMin A.data) /
            ((npMax A.data - npMin A.data) / 256)) : ℕ) : ℚ))
        dtype := .uint8
        shape := A.shape } := by
    rw [DenseNdArray.setValue, if_neg (by simp), if_neg (by simp),
      if_pos ⟨rfl, hd⟩, if_neg hne]
  refine ⟨_, ⟨A.dtype, A.shape,
    (A.data.map (fun v =>
      ((toUint8 ((v - npMin A.data) /
        ((npMax A.data - npMin A.data) / 256)) : ℕ) : ℚ))).map
      (fun u => castF A.dtype u * ((npMax A.data - npMin A.data) / 256) +
        npMin A.data)⟩, hb, rfl, ?_, rfl, ?_⟩
  · simp [DenseNdArray.getValue, hne, hw]
    intro h0
    exact absurd (List.length_eq_zero.mp (hw.trans (List.prod_eq_zero h0))) hne
  · intro i v r hv hr
    rw [List.getElem?_map, List.getElem?_map, hv, Option.map_some',
      Option.map_some'] at hr
    have hr' : r = castF A.dtype
        ((toUint8 ((v - npMin A.data) /
          ((npMax A.data - npMin A.data) / 256)) : ℕ) : ℚ) *
        ((npMax A.data - npMin A.data) / 256) + npMin A.data :=
      (Option.some_inj.mp hr).symm
    have hmem : v ∈ A.data := by
      have := List.getElem?_eq_some_iff.mp hv
      rcases this with ⟨hlt, hget⟩
      exact hget ▸ List.getElem_mem hlt
    have h := uint8_elem castF A.dtype (npMin A.data) (npMax A.data) v hcast
      (npMin_le hmem) (le_npMax hmem)
    subst hr'
    exact h

/-- Witness for C1 (amended): the float32 array `[0, 2]` (`scale = 1/128`):
the theorem instantiated with the identity cast model. -/
theorem C1_uint8_roundtrip_amended_witness :
    ∃ (blob : DenseNdArrayProto) (arr : NdArr),
      DenseNdArray.setValue (some "uint8") (fun _ q => q)
        ⟨.float32, [2], [0, 2]⟩ = some blob ∧
      blob.scale = (npMax [0, 2] - npMin [0, 2]) / 256 ∧
      DenseNdArray.getValue (fun _ q => q) blob = Except.ok (some arr) ∧
      arr.shape = [2] ∧
      ∀ (i : ℕ) (v r : ℚ), ([0, 2] : List ℚ)[i]? = some v → arr.data[i]? = some r →
        (npMax [0, 2] = npMin [0, 2] → r = npMin [0, 2]) ∧
        (npMin [0, 2] < npMax [0, 2] →
          (v < npMax [0, 2] → |r - v| < blob.scale) ∧
          (v = npMax [0, 2] → r = npMin [0, 2])) :=
  C1_uint8_roundtrip_amended (fun _ q => q) ⟨.float32, [2], [0, 2]⟩
    (Or.inl rfl) (by simp) rfl (fun _ _ => rfl)

end Jina
